import Mathlib

/-!
Shallow embedding of the orientation-detection state machine of
`OrientationService` (src/unnamed/part_002).

JavaScript numbers are modelled as exact rationals (ℚ); all values that
occur in the source and in the scenarios below are dyadic rationals, so
no floating-point rounding is observable at any comparison performed.
The two consecutive-sample counters are JavaScript integers that stay
non-negative (`Math.max(0, c - 1)`), modelled as ℕ with truncated
subtraction.  Observer callbacks are modelled by identities (ℕ); an
observer invocation is recorded as a pair (identity, published value)
in an event log, in the order the `forEach` of the source fires them.
Absent readings (web: `beta === null`; mobile: no acceleration object or
`z` not a number) are modelled as `none`.
-/

namespace Razr

/-- The mutable fields of the `OrientationService` class.
`webOrientationHandler` and `subscription` record only presence
(non-null), which is all `destroy()` branches on.  `platformWeb` models
the equality test of `Platform.OS` against the web platform tag, fixed
for the life of the instance. -/
structure OrientationService where
  callbacks : List ℕ
  isFlipped : Bool
  platformWeb : Bool
  webOrientationHandler : Bool
  subscription : Bool
  emaZ : Option ℚ
  flipStableCount : ℕ
  unflipStableCount : ℕ
deriving Repr, DecidableEq

/-- Field initializer `private alpha = 0.25` — EMA smoothing factor. -/
def alpha : ℚ := 1/4

/-- Field initializer `private flipEnterThreshold = -0.6` (mobile branch). -/
def flipEnterThreshold : ℚ := -3/5

/-- Field initializer `private flipExitThreshold = -0.2` (mobile branch). -/
def flipExitThreshold : ℚ := -1/5

/-- Field initializer `private stableRequired = 3`. -/
def stableRequired : ℕ := 3

/-- Local constant `enterDeg = 150` of the web handler (degrees). -/
def enterDeg : ℚ := 150

/-- Local constant `exitDeg = 30` of the web handler (degrees). -/
def exitDeg : ℚ := 30

/-- The state right after the constructor ran (field initializers;
`startListening` installs the web handler on web and the DeviceMotion
subscription on mobile). -/
def initState (web : Bool) : OrientationService :=
  { callbacks := []
    isFlipped := false
    platformWeb := web
    webOrientationHandler := web
    subscription := !web
    emaZ := none
    flipStableCount := 0
    unflipStableCount := 0 }

/-- Method `notifyCallbacks`: if the published state differs, update
it and invoke every registered callback in order with the new value;
otherwise do nothing.  Returns the new state and the list of observer
invocations performed. -/
def notifyCallbacks (v : Bool) (s : OrientationService) :
    OrientationService × List (ℕ × Bool) :=
  if s.isFlipped ≠ v then
    ({ s with isFlipped := v }, s.callbacks.map (fun c => (c, v)))
  else
    (s, [])

/-- Body of the `deviceorientation` handler installed by
`startWebOrientation`: given `event.beta` (or `none` when
`beta === null`), classify `Math.abs(beta)` against `enterDeg`/`exitDeg`,
update the stability counters, and publish when a counter reaches
`stableRequired`. -/
def webHandlerStep (s : OrientationService) (beta : Option ℚ) :
    OrientationService × List (ℕ × Bool) :=
  match beta with
  | none => (s, [])
  | some b =>
    let absBeta := |b|
    let s1 :=
      if absBeta > enterDeg then
        { s with flipStableCount := s.flipStableCount + 1
                 unflipStableCount := 0 }
      else if absBeta < exitDeg then
        { s with unflipStableCount := s.unflipStableCount + 1
                 flipStableCount := 0 }
      else
        { s with flipStableCount := s.flipStableCount - 1
                 unflipStableCount := s.unflipStableCount - 1 }
    if s1.flipStableCount ≥ stableRequired then
      notifyCallbacks true s1
    else if s1.unflipStableCount ≥ stableRequired then
      notifyCallbacks false s1
    else
      (s1, [])

/-- The filtered value the mobile branch computes for a present sample
`z`: the EMA is first initialized to `z` when still null, then updated by
`alpha * z + (1 - alpha) * emaZ`. -/
def mobileClassifiedValue (s : OrientationService) (z : ℚ) : ℚ :=
  alpha * z + (1 - alpha) * (s.emaZ.getD z)

/-- Body of the `DeviceMotion` listener installed by
`startMobileOrientation`: `none` models a motion event with no usable
`z` (no acceleration object, or `z` not a number), which returns early;
otherwise update the EMA, classify it against the hysteresis thresholds,
update the stability counters, and publish when a counter reaches
`stableRequired`. -/
def mobileMotionStep (s : OrientationService) (z? : Option ℚ) :
    OrientationService × List (ℕ × Bool) :=
  match z? with
  | none => (s, [])
  | some z =>
    let ema := mobileClassifiedValue s z
    let s1 := { s with emaZ := some ema }
    let s2 :=
      if ema < flipEnterThreshold then
        { s1 with flipStableCount := s1.flipStableCount + 1
                  unflipStableCount := 0 }
      else if ema > flipExitThreshold then
        { s1 with unflipStableCount := s1.unflipStableCount + 1
                  flipStableCount := 0 }
      else
        { s1 with flipStableCount := s1.flipStableCount - 1
                  unflipStableCount := s1.unflipStableCount - 1 }
    if s2.flipStableCount ≥ stableRequired then
      notifyCallbacks true s2
    else if s2.unflipStableCount ≥ stableRequired then
      notifyCallbacks false s2
    else
      (s2, [])

/-- Run a sample-handler over a list of incoming samples, threading the
state and concatenating the observer-invocation logs. -/
def runSteps
    (step : OrientationService → Option ℚ →
      OrientationService × List (ℕ × Bool))
    (s : OrientationService) :
    List (Option ℚ) → OrientationService × List (ℕ × Bool)
  | [] => (s, [])
  | x :: xs =>
    let r1 := step s x
    let r2 := runSteps step r1.1 xs
    (r2.1, r1.2 ++ r2.2)

/-- The sequence of filtered (classified) values the mobile branch
computes along a run, one per present sample. -/
def emaTrace (s : OrientationService) : List (Option ℚ) → List ℚ
  | [] => []
  | none :: xs => emaTrace s xs
  | some z :: xs =>
    mobileClassifiedValue s z ::
      emaTrace (mobileMotionStep s (some z)).1 xs

/-- Method `getCurrentOrientation`: returns the last published flip state. -/
def getCurrentOrientation (s : OrientationService) : Bool :=
  s.isFlipped

/-- Method `destroy`: on web with a handler installed, remove and null the
handler; otherwise, if a subscription exists, remove and null it; then
clear the callback list. -/
def destroy (s : OrientationService) : OrientationService :=
  let s1 :=
    if s.platformWeb ∧ s.webOrientationHandler then
      { s with webOrientationHandler := false }
    else if s.subscription then
      { s with subscription := false }
    else s
  { s1 with callbacks := [] }

end Razr

namespace Razr

/-- C8: a sample whose axis value is absent is dropped: both handlers
return with the state (EMA, both counters, published state, callbacks)
completely unchanged and no observer invoked.  Both missing-field cases
of the mobile branch (no acceleration object at all, and a `z` field
that is not a number) are
the `none` sample. -/
theorem missing_sample_dropped (s : OrientationService) :
    webHandlerStep s none = (s, []) ∧ mobileMotionStep s none = (s, []) :=
  ⟨rfl, rfl⟩

/-- C10: `destroy()` modifies only the handler/subscription presence and
the observer list; the published flip state, the EMA and both counters
are untouched, so `getCurrentOrientation()` still returns the value last
published before teardown. -/
theorem destroy_frame (s : OrientationService) :
    (destroy s).isFlipped = s.isFlipped ∧
    getCurrentOrientation (destroy s) = getCurrentOrientation s ∧
    (destroy s).emaZ = s.emaZ ∧
    (destroy s).flipStableCount = s.flipStableCount ∧
    (destroy s).unflipStableCount = s.unflipStableCount ∧
    (destroy s).callbacks = [] := by
  unfold destroy getCurrentOrientation
  by_cases h1 : s.platformWeb ∧ s.webOrientationHandler
  · simp [h1]
  · by_cases h2 : s.subscription = true
    · simp [h1, h2]
    · simp [h1, h2]


/-- Helper: `notifyCallbacks` never touches the callback list, and on an
empty callback list it performs no observer invocation. -/
theorem notifyCallbacks_callbacks (v : Bool) (s : OrientationService) :
    ((notifyCallbacks v s).1).callbacks = s.callbacks ∧
    (notifyCallbacks v s).2 = s.callbacks.map (fun c => (c, v)) ∨
    (notifyCallbacks v s).1 = s ∧ (notifyCallbacks v s).2 = [] := by
  unfold notifyCallbacks
  split
  · left; exact ⟨rfl, rfl⟩
  · right; exact ⟨rfl, rfl⟩

/-- Helper: a handler step keeps the callback list unchanged, and its
observer-invocation log is empty whenever the callback list is empty. -/
theorem step_callbacks_invariant (s : OrientationService) (z : Option ℚ) :
    (((webHandlerStep s z).1).callbacks = s.callbacks ∧
      (s.callbacks = [] → (webHandlerStep s z).2 = [])) ∧
    (((mobileMotionStep s z).1).callbacks = s.callbacks ∧
      (s.callbacks = [] → (mobileMotionStep s z).2 = [])) := by
  cases z with
  | none => exact ⟨⟨rfl, fun _ => rfl⟩, ⟨rfl, fun _ => rfl⟩⟩
  | some b =>
    constructor
    · unfold webHandlerStep notifyCallbacks
      dsimp only
      split_ifs <;> simp_all
    · unfold mobileMotionStep notifyCallbacks
      dsimp only
      split_ifs <;> simp_all

/-- Helper: running any number of samples from a state with an empty
callback list produces no observer invocation, in either mode. -/
theorem runSteps_no_callbacks
    (step : OrientationService → Option ℚ →
      OrientationService × List (ℕ × Bool))
    (hstep : ∀ s z, ((step s z).1).callbacks = s.callbacks ∧
      (s.callbacks = [] → (step s z).2 = []))
    (zs : List (Option ℚ)) :
    ∀ s : OrientationService, s.callbacks = [] →
      (runSteps step s zs).2 = [] := by
  induction zs with
  | nil => intro s _; rfl
  | cons x xs ih =>
    intro s h
    have h1 := (hstep s x).1
    have h2 := (hstep s x).2 h
    simp only [runSteps]
    rw [h2, ih (step s x).1 (h1.trans h)]
    rfl

/-- C1: the publish contract of `notifyCallbacks`.  Publishing the value
already published is a no-op: the state is unchanged and no observer is
invoked.  Publishing a different value sets the published state to the
new value, leaves every other field alone, and invokes every registered
observer exactly once, synchronously, in registration order, with the
new value. -/
theorem notify_publish_contract (s : OrientationService) (v : Bool) :
    (v = s.isFlipped → notifyCallbacks v s = (s, [])) ∧
    (v ≠ s.isFlipped →
      (notifyCallbacks v s).1 = { s with isFlipped := v } ∧
      (notifyCallbacks v s).2 = s.callbacks.map (fun c => (c, v))) := by
  unfold notifyCallbacks
  constructor
  · intro h
    simp [h]
  · intro h
    have hne : s.isFlipped ≠ v := fun he => h he.symm
    simp [hne]

/-- Witness for C1 at concrete states: publishing `false` on a fresh
(web) instance is a no-op, and publishing `true` on a fresh instance
with one registered observer invokes exactly that observer with `true`. -/
theorem notify_publish_contract_witness :
    notifyCallbacks false (initState true) = (initState true, []) ∧
    (notifyCallbacks true { initState true with callbacks := [7] }).2 =
      [(7, true)] :=
  ⟨(notify_publish_contract (initState true) false).1 (by decide),
   ((notify_publish_contract { initState true with callbacks := [7] }
      true).2 (by decide)).2⟩

/-- C9: after `destroy` the observer list is empty and no later sample —
even one fed directly to the internal handler of either mode — produces
any observer invocation, whatever the prior state and sample values. -/
theorem destroyed_service_never_notifies
    (s : OrientationService) (zs : List (Option ℚ)) :
    (runSteps webHandlerStep (destroy s) zs).2 = [] ∧
    (runSteps mobileMotionStep (destroy s) zs).2 = [] := by
  have hcb : (destroy s).callbacks = [] := rfl
  exact ⟨runSteps_no_callbacks webHandlerStep
      (fun s z => (step_callbacks_invariant s z).1) zs (destroy s) hcb,
    runSteps_no_callbacks mobileMotionStep
      (fun s z => (step_callbacks_invariant s z).2) zs (destroy s) hcb⟩


/-- Helper: each handler step preserves the property that at most one
stability counter is nonzero, in either mode. -/
theorem step_preserves_exclusive (s : OrientationService) (z : Option ℚ)
    (h : s.flipStableCount = 0 ∨ s.unflipStableCount = 0) :
    (((webHandlerStep s z).1).flipStableCount = 0 ∨
      ((webHandlerStep s z).1).unflipStableCount = 0) ∧
    (((mobileMotionStep s z).1).flipStableCount = 0 ∨
      ((mobileMotionStep s z).1).unflipStableCount = 0) := by
  cases z with
  | none => exact ⟨h, h⟩
  | some b =>
    constructor
    · unfold webHandlerStep notifyCallbacks
      dsimp only
      split_ifs <;> simp_all <;> omega
    · unfold mobileMotionStep notifyCallbacks
      dsimp only
      split_ifs <;> simp_all <;> omega

/-- Helper: a handler step that strictly increases one stability counter
leaves the opposite counter at zero, in either mode, from any state. -/
theorem step_increment_resets (s : OrientationService) (z : Option ℚ) :
    (((webHandlerStep s z).1).flipStableCount > s.flipStableCount →
      ((webHandlerStep s z).1).unflipStableCount = 0) ∧
    (((webHandlerStep s z).1).unflipStableCount > s.unflipStableCount →
      ((webHandlerStep s z).1).flipStableCount = 0) ∧
    (((mobileMotionStep s z).1).flipStableCount > s.flipStableCount →
      ((mobileMotionStep s z).1).unflipStableCount = 0) ∧
    (((mobileMotionStep s z).1).unflipStableCount > s.unflipStableCount →
      ((mobileMotionStep s z).1).flipStableCount = 0) := by
  cases z with
  | none => exact ⟨fun h => absurd h (lt_irrefl _), fun h => absurd h (lt_irrefl _),
      fun h => absurd h (lt_irrefl _), fun h => absurd h (lt_irrefl _)⟩
  | some b =>
    refine ⟨?_, ?_, ?_, ?_⟩ <;>
      (first
        | (unfold webHandlerStep notifyCallbacks
           dsimp only
           split_ifs <;> simp_all)
        | (unfold mobileMotionStep notifyCallbacks
           dsimp only
           split_ifs <;> simp_all))

/-- C2: from the freshly constructed state (both counters zero), every
state reachable by a sequence of samples, in either mode, has at most
one nonzero stability counter; moreover any single step that increments
one counter resets the opposite counter to zero. -/
theorem counters_mutually_exclusive (zs : List (Option ℚ)) :
    (((runSteps webHandlerStep (initState true) zs).1).flipStableCount = 0 ∨
      ((runSteps webHandlerStep (initState true) zs).1).unflipStableCount = 0) ∧
    (((runSteps mobileMotionStep (initState false) zs).1).flipStableCount = 0 ∨
      ((runSteps mobileMotionStep (initState false) zs).1).unflipStableCount = 0) ∧
    (∀ (s : OrientationService) (z : Option ℚ),
      (((webHandlerStep s z).1).flipStableCount > s.flipStableCount →
        ((webHandlerStep s z).1).unflipStableCount = 0) ∧
      (((webHandlerStep s z).1).unflipStableCount > s.unflipStableCount →
        ((webHandlerStep s z).1).flipStableCount = 0) ∧
      (((mobileMotionStep s z).1).flipStableCount > s.flipStableCount →
        ((mobileMotionStep s z).1).unflipStableCount = 0) ∧
      (((mobileMotionStep s z).1).unflipStableCount > s.unflipStableCount →
        ((mobileMotionStep s z).1).flipStableCount = 0)) := by
  have run : ∀ (step : OrientationService → Option ℚ →
      OrientationService × List (ℕ × Bool)),
      (∀ s z, (s.flipStableCount = 0 ∨ s.unflipStableCount = 0) →
        ((step s z).1).flipStableCount = 0 ∨
        ((step s z).1).unflipStableCount = 0) →
      ∀ (ys : List (Option ℚ)) (s : OrientationService),
        (s.flipStableCount = 0 ∨ s.unflipStableCount = 0) →
        ((runSteps step s ys).1).flipStableCount = 0 ∨
        ((runSteps step s ys).1).unflipStableCount = 0 := by
    intro step hstep ys
    induction ys with
    | nil => intro s h; exact h
    | cons x xs ih =>
      intro s h
      exact ih (step s x).1 (hstep s x h)
  refine ⟨run webHandlerStep
      (fun s z h => (step_preserves_exclusive s z h).1) zs (initState true)
      (Or.inl rfl),
    run mobileMotionStep
      (fun s z h => (step_preserves_exclusive s z h).2) zs (initState false)
      (Or.inl rfl),
    fun s z => step_increment_resets s z⟩

/-- Witness for C2 at a concrete run and step: after the samples 170 and
-1 the invariant holds in both modes, and a step on the sample 170 (web)
and -1 (mobile) from the fresh state increments the flip counter and
leaves the unflip counter at zero. -/
theorem counters_mutually_exclusive_witness :
    (((runSteps webHandlerStep (initState true) [some 170]).1).flipStableCount = 0 ∨
      ((runSteps webHandlerStep (initState true) [some 170]).1).unflipStableCount = 0) ∧
    ((webHandlerStep (initState true) (some 170)).1).unflipStableCount = 0 ∧
    ((mobileMotionStep (initState false) (some (-1))).1).unflipStableCount = 0 := by
  refine ⟨(counters_mutually_exclusive [some 170]).1, ?_, ?_⟩
  · exact ((counters_mutually_exclusive []).2.2 (initState true) (some 170)).1
      (by decide)
  · exact ((counters_mutually_exclusive []).2.2 (initState false) (some (-1))).2.2.1
      (by norm_num [mobileMotionStep, mobileClassifiedValue, notifyCallbacks,
        initState, alpha, flipEnterThreshold, flipExitThreshold, stableRequired])


/-- Helper: a web sample strictly inside the dead zone, taken from a
state with both counters zero, keeps both counters zero and invokes no
observer. -/
theorem web_step_deadzone (s : OrientationService) (b : ℚ)
    (h1 : exitDeg < |b|) (h2 : |b| < enterDeg)
    (hf : s.flipStableCount = 0) (hu : s.unflipStableCount = 0) :
    ((webHandlerStep s (some b)).1).flipStableCount = 0 ∧
    ((webHandlerStep s (some b)).1).unflipStableCount = 0 ∧
    (webHandlerStep s (some b)).2 = [] := by
  have hne : ¬ |b| > enterDeg := not_lt.mpr h2.le
  have hnx : ¬ |b| < exitDeg := not_lt.mpr h1.le
  unfold webHandlerStep
  dsimp only
  rw [if_neg hne, if_neg hnx]
  simp [hf, hu, stableRequired]

/-- Helper: a mobile sample whose filtered value lies strictly inside
the dead zone, taken from a state with both counters zero, keeps both
counters zero and invokes no observer. -/
theorem mobile_step_deadzone (s : OrientationService) (z : ℚ)
    (h1 : flipEnterThreshold < mobileClassifiedValue s z)
    (h2 : mobileClassifiedValue s z < flipExitThreshold)
    (hf : s.flipStableCount = 0) (hu : s.unflipStableCount = 0) :
    ((mobileMotionStep s (some z)).1).flipStableCount = 0 ∧
    ((mobileMotionStep s (some z)).1).unflipStableCount = 0 ∧
    (mobileMotionStep s (some z)).2 = [] := by
  have hne : ¬ mobileClassifiedValue s z < flipEnterThreshold :=
    not_lt.mpr h1.le
  have hnx : ¬ mobileClassifiedValue s z > flipExitThreshold :=
    not_lt.mpr h2.le
  unfold mobileMotionStep
  dsimp only
  rw [if_neg hne, if_neg hnx]
  simp [hf, hu, stableRequired]

/-- Helper: a whole web run of dead-zone samples from a state with both
counters zero ends with both counters zero and an empty log. -/
theorem web_run_deadzone (bs : List ℚ) :
    ∀ s : OrientationService,
      (∀ b ∈ bs, exitDeg < |b| ∧ |b| < enterDeg) →
      s.flipStableCount = 0 → s.unflipStableCount = 0 →
      ((runSteps webHandlerStep s (bs.map some)).1).flipStableCount = 0 ∧
      ((runSteps webHandlerStep s (bs.map some)).1).unflipStableCount = 0 ∧
      (runSteps webHandlerStep s (bs.map some)).2 = [] := by
  induction bs with
  | nil => intro s _ hf hu; exact ⟨hf, hu, rfl⟩
  | cons b bs ih =>
    intro s hb hf hu
    obtain ⟨hd1, hd2⟩ := hb b (List.mem_cons_self b bs)
    obtain ⟨hf1, hu1, hl1⟩ := web_step_deadzone s b hd1 hd2 hf hu
    obtain ⟨hf2, hu2, hl2⟩ :=
      ih (webHandlerStep s (some b)).1
        (fun x hx => hb x (List.mem_cons_of_mem b hx)) hf1 hu1
    refine ⟨hf2, hu2, ?_⟩
    simp only [List.map_cons, runSteps]
    rw [hl1, hl2]
    rfl

/-- Helper: a whole mobile run whose filtered trace stays strictly
inside the dead zone, from a state with both counters zero, ends with
both counters zero and an empty log. -/
theorem mobile_run_deadzone (zs : List ℚ) :
    ∀ s : OrientationService,
      (∀ v ∈ emaTrace s (zs.map some),
        flipEnterThreshold < v ∧ v < flipExitThreshold) →
      s.flipStableCount = 0 → s.unflipStableCount = 0 →
      ((runSteps mobileMotionStep s (zs.map some)).1).flipStableCount = 0 ∧
      ((runSteps mobileMotionStep s (zs.map some)).1).unflipStableCount = 0 ∧
      (runSteps mobileMotionStep s (zs.map some)).2 = [] := by
  induction zs with
  | nil => intro s _ hf hu; exact ⟨hf, hu, rfl⟩
  | cons z zs ih =>
    intro s hb hf hu
    have htr : emaTrace s ((z :: zs).map some) =
        mobileClassifiedValue s z ::
          emaTrace (mobileMotionStep s (some z)).1 (zs.map some) := rfl
    obtain ⟨hd1, hd2⟩ := hb (mobileClassifiedValue s z)
      (by rw [htr]; exact List.mem_cons_self _ _)
    obtain ⟨hf1, hu1, hl1⟩ := mobile_step_deadzone s z hd1 hd2 hf hu
    obtain ⟨hf2, hu2, hl2⟩ :=
      ih (mobileMotionStep s (some z)).1
        (fun x hx => hb x (by rw [htr]; exact List.mem_cons_of_mem _ hx))
        hf1 hu1
    refine ⟨hf2, hu2, ?_⟩
    simp only [List.map_cons, runSteps]
    rw [hl1, hl2]
    rfl

/-- C4: hysteresis.  From the fresh state, any number of samples whose
classified values lie strictly between the exit and enter thresholds
(web: the absolute tilt between 30 and 150 degrees; mobile: the filtered
value between -0.6 and -0.2) never invokes an observer, and both
stability counters stay at zero, strictly below `stableRequired`. -/
theorem deadzone_never_publishes (bs zs : List ℚ)
    (hw : ∀ b ∈ bs, exitDeg < |b| ∧ |b| < enterDeg)
    (hm : ∀ v ∈ emaTrace (initState false) (zs.map some),
      flipEnterThreshold < v ∧ v < flipExitThreshold) :
    ((runSteps webHandlerStep (initState true) (bs.map some)).2 = [] ∧
      ((runSteps webHandlerStep (initState true) (bs.map some)).1).flipStableCount = 0 ∧
      ((runSteps webHandlerStep (initState true) (bs.map some)).1).unflipStableCount = 0) ∧
    ((runSteps mobileMotionStep (initState false) (zs.map some)).2 = [] ∧
      ((runSteps mobileMotionStep (initState false) (zs.map some)).1).flipStableCount = 0 ∧
      ((runSteps mobileMotionStep (initState false) (zs.map some)).1).unflipStableCount = 0) := by
  obtain ⟨w1, w2, w3⟩ := web_run_deadzone bs (initState true) hw rfl rfl
  obtain ⟨m1, m2, m3⟩ := mobile_run_deadzone zs (initState false) hm rfl rfl
  exact ⟨⟨w3, w1, w2⟩, ⟨m3, m1, m2⟩⟩

/-- Witness for C4: a concrete dead-zone run in each mode (tilt 100
degrees, and an acceleration sample whose filtered value is -0.4)
produces no observer invocation. -/
theorem deadzone_never_publishes_witness :
    (runSteps webHandlerStep (initState true)
      ([(100 : ℚ), -90].map some)).2 = [] ∧
    (runSteps mobileMotionStep (initState false)
      ([(-2/5 : ℚ)].map some)).2 = [] := by
  have hw : ∀ b ∈ [(100 : ℚ), -90], exitDeg < |b| ∧ |b| < enterDeg := by
    intro b hb
    simp only [List.mem_cons, List.not_mem_nil, or_false] at hb
    rcases hb with rfl | rfl <;> norm_num [exitDeg, enterDeg]
  have hm : ∀ v ∈ emaTrace (initState false) ([(-2/5 : ℚ)].map some),
      flipEnterThreshold < v ∧ v < flipExitThreshold := by
    have ht : emaTrace (initState false) ([(-2/5 : ℚ)].map some) =
        [(-2/5 : ℚ)] := by
      norm_num [emaTrace, mobileClassifiedValue, initState, alpha]
    rw [ht]
    intro v hv
    simp only [List.mem_singleton] at hv
    subst hv
    norm_num [flipEnterThreshold, flipExitThreshold]
  have h := deadzone_never_publishes [(100 : ℚ), -90] [(-2/5 : ℚ)] hw hm
  exact ⟨h.1.1, h.2.1⟩


/-- Helper: effect of one mobile sample `z` below the enter threshold on
a state whose EMA is `z` (or still null, so the EMA initializes to `z`):
the EMA stays `z`, the flip counter increments, the unflip counter
resets, and publication happens exactly when the incremented counter
reaches `stableRequired`. -/
theorem mobile_step_enter (s : OrientationService) (z : ℚ)
    (hz : z < flipEnterThreshold) (he : s.emaZ.getD z = z) :
    mobileMotionStep s (some z) =
      if s.flipStableCount + 1 ≥ stableRequired then
        notifyCallbacks true
          { s with emaZ := some z,
                   flipStableCount := s.flipStableCount + 1,
                   unflipStableCount := 0 }
      else
        ({ s with emaZ := some z,
                  flipStableCount := s.flipStableCount + 1,
                  unflipStableCount := 0 }, []) := by
  have hv : mobileClassifiedValue s z = z := by
    unfold mobileClassifiedValue
    rw [he]
    ring
  unfold mobileMotionStep
  dsimp only
  rw [hv, if_pos hz]
  by_cases h3 : s.flipStableCount + 1 ≥ stableRequired
  · rw [if_pos h3, if_pos h3]
  · rw [if_neg h3, if_neg h3]
    simp [stableRequired]

/-- Helper: once the flip state is already published `true`, the flip
counter is at least 2 and the EMA sits at `z`, any further stream of the
same qualifying sample `z` republishes nothing: every step confirms the
already-published state and `notifyCallbacks` is a no-op. -/
theorem mobile_enter_tail (z : ℚ) (hz : z < flipEnterThreshold) :
    ∀ (n : ℕ) (s : OrientationService), s.emaZ = some z →
      s.isFlipped = true → 2 ≤ s.flipStableCount →
      (runSteps mobileMotionStep s (List.replicate n (some z))).2 = [] := by
  intro n
  induction n with
  | zero => intro s _ _ _; rfl
  | succ k ih =>
    intro s h1 h2 h3
    have he : s.emaZ.getD z = z := by rw [h1]; rfl
    rw [List.replicate_succ]
    simp only [runSteps]
    rw [mobile_step_enter s z hz he,
      if_pos (show s.flipStableCount + 1 ≥ stableRequired by
        unfold stableRequired; omega)]
    unfold notifyCallbacks
    rw [if_neg (by simp [h2])]
    simp only [List.nil_append]
    exact ih _ rfl (by simp [h2]) (by simp; omega)

/-- C3: idempotence of a confirmed transition.  From the fresh mobile
state with any registered observers, a stream of `stableRequired`
identical samples below the enter threshold invokes every observer
exactly once with `true`, and any number of further identical qualifying
samples adds no further invocation. -/
theorem qualifying_samples_publish_once (cbs : List ℕ) (z : ℚ) (n : ℕ)
    (hz : z < flipEnterThreshold) :
    (runSteps mobileMotionStep { initState false with callbacks := cbs }
      (List.replicate stableRequired (some z))).2 =
      cbs.map (fun c => (c, true)) ∧
    (runSteps mobileMotionStep { initState false with callbacks := cbs }
      (List.replicate (stableRequired + n) (some z))).2 =
      cbs.map (fun c => (c, true)) := by
  have key : ∀ m : ℕ,
      (runSteps mobileMotionStep { initState false with callbacks := cbs }
        (List.replicate (stableRequired + m) (some z))).2 =
        cbs.map (fun c => (c, true)) := by
    intro m
    have e1 : List.replicate (stableRequired + m) (some z) =
        some z :: some z :: some z :: List.replicate m (some z) := by
      rw [show stableRequired + m = m + 3 by unfold stableRequired; omega]
      rfl
    have st1 : mobileMotionStep { initState false with callbacks := cbs }
        (some z) =
        ({ initState false with
            callbacks := cbs
            emaZ := some z
            flipStableCount := 1 }, []) := by
      rw [mobile_step_enter { initState false with callbacks := cbs } z hz rfl]
      simp [stableRequired, initState]
    have st2 : mobileMotionStep
        { initState false with
            callbacks := cbs
            emaZ := some z
            flipStableCount := 1 } (some z) =
        ({ initState false with
            callbacks := cbs
            emaZ := some z
            flipStableCount := 2 }, []) := by
      rw [mobile_step_enter
        { initState false with
            callbacks := cbs
            emaZ := some z
            flipStableCount := 1 } z hz rfl]
      simp [stableRequired, initState]
    have st3 : mobileMotionStep
        { initState false with
            callbacks := cbs
            emaZ := some z
            flipStableCount := 2 } (some z) =
        ({ initState false with
            callbacks := cbs
            isFlipped := true
            emaZ := some z
            flipStableCount := 3 },
         cbs.map (fun c => (c, true))) := by
      rw [mobile_step_enter
        { initState false with
            callbacks := cbs
            emaZ := some z
            flipStableCount := 2 } z hz rfl]
      simp [stableRequired, initState, notifyCallbacks]
    have st4 : (runSteps mobileMotionStep
        { initState false with
            callbacks := cbs
            isFlipped := true
            emaZ := some z
            flipStableCount := 3 }
        (List.replicate m (some z))).2 = [] :=
      mobile_enter_tail z hz m
        { initState false with
            callbacks := cbs
            isFlipped := true
            emaZ := some z
            flipStableCount := 3 }
        rfl rfl (by simp)
    rw [e1]
    simp only [runSteps]
    rw [st1]
    dsimp only
    rw [st2]
    dsimp only
    rw [st3]
    dsimp only
    rw [st4]
    simp
  exact ⟨by have h := key 0; simpa using h, key n⟩

/-- Witness for C3 at a concrete run: with one observer and the
qualifying sample -1, three samples invoke the observer once with
`true`, and five samples still invoke it only once. -/
theorem qualifying_samples_publish_once_witness :
    (runSteps mobileMotionStep { initState false with callbacks := [0] }
      (List.replicate stableRequired (some (-1)))).2 = [(0, true)] ∧
    (runSteps mobileMotionStep { initState false with callbacks := [0] }
      (List.replicate (stableRequired + 2) (some (-1)))).2 = [(0, true)] := by
  have h := qualifying_samples_publish_once [0] (-1) 2
    (by norm_num [flipEnterThreshold])
  simpa using h


/-- C5: Scenario A in tilt (web) mode with one registered observer.
Two samples of 170 and 172 degrees publish nothing; the third (175)
publishes `true`; the following samples 10 and 12 (only two
exit-qualifying samples) publish nothing further; the next sample 5 is
the third consecutive exit-qualifying sample and publishes `false`. -/
theorem scenarioA_tilt_sequence :
    (runSteps webHandlerStep { initState true with callbacks := [0] }
      ([(170 : ℚ), 172].map some)).2 = [] ∧
    (runSteps webHandlerStep { initState true with callbacks := [0] }
      ([(170 : ℚ), 172, 175].map some)).2 = [(0, true)] ∧
    (runSteps webHandlerStep { initState true with callbacks := [0] }
      ([(170 : ℚ), 172, 175, 10, 12].map some)).2 = [(0, true)] ∧
    (runSteps webHandlerStep { initState true with callbacks := [0] }
      ([(170 : ℚ), 172, 175, 10, 12, 5].map some)).2 =
      [(0, true), (0, false)] := by
  refine ⟨by decide, by decide, by decide, by decide⟩

/-- Counterexample to C6 as stated: in acceleration mode with the EMA
sitting at 0, the raw samples -5, -5, -5 drive the EMA to exactly
-185/64 = -2.890625, which is not roughly -1.95: it differs from -1.95
by more than 0.9. -/
theorem scenarioB_ema_not_roughly_195 :
    ((runSteps mobileMotionStep
      { initState false with callbacks := [0], emaZ := some 0 }
      ([(-5 : ℚ), -5, -5].map some)).1).emaZ = some (-185/64) ∧
    ¬ |(-185/64 : ℚ) - (-39/20)| ≤ 1/2 := by
  constructor
  · norm_num [runSteps, mobileMotionStep, mobileClassifiedValue,
      notifyCallbacks, initState, alpha, flipEnterThreshold,
      flipExitThreshold, stableRequired]
  · rw [abs_le]
    norm_num

/-- C6 amended: in acceleration mode with alpha 0.25 and the EMA
sitting at 0, the raw samples -5, -5, -5 produce the filtered values
-5/4, -35/16, -185/64 (so the EMA reaches exactly -2.890625 after 3
samples, decreasing monotonically), every filtered value is already
below the enter threshold -0.6, and the third sample publishes `true`
to the registered observer. -/
theorem scenarioB_amended :
    emaTrace { initState false with callbacks := [0], emaZ := some 0 }
      ([(-5 : ℚ), -5, -5].map some) = [-5/4, -35/16, -185/64] ∧
    ((-5/4 : ℚ) < 0 ∧ (-35/16 : ℚ) < -5/4 ∧ (-185/64 : ℚ) < -35/16) ∧
    ((-5/4 : ℚ) < flipEnterThreshold ∧ (-35/16 : ℚ) < flipEnterThreshold ∧
      (-185/64 : ℚ) < flipEnterThreshold) ∧
    (runSteps mobileMotionStep
      { initState false with callbacks := [0], emaZ := some 0 }
      ([(-5 : ℚ), -5, -5].map some)).2 = [(0, true)] := by
  refine ⟨?_, by norm_num, by norm_num [flipEnterThreshold], ?_⟩
  · norm_num [emaTrace, mobileMotionStep, mobileClassifiedValue,
      notifyCallbacks, initState, alpha, flipEnterThreshold,
      flipExitThreshold, stableRequired]
  · norm_num [runSteps, mobileMotionStep, mobileClassifiedValue,
      notifyCallbacks, initState, alpha, flipEnterThreshold,
      flipExitThreshold, stableRequired]

end Razr
